import Mathlib

/-!
# The SSO credential service: a shallow embedding and its checked properties

The Go packages of the service are embedded package by package, each in a
namespace of the same name:

* `models`, `storage` (error variables), `sqlite` (the storage backend),
* `jwt` (token construction), `auth` (the service), `validation`,
* `authgrpc` (the gRPC handlers).

Conventions of the embedding.

* A Go function returning `(T, error)` returns a pair `T × Option GoError`;
  `none` is the nil error.  Both components are kept because the source
  returns a definite value next to every error (`""`, `0`, `false`).
* Everything outside the program (database, clock, random salt, log sink) is
  a world of an arbitrary type `σ`.  A call that touches the world takes the
  world and returns the new one beside its result.
* Go strings are taken to be valid UTF-8, so a string is its sequence of code
  points; protobuf string fields satisfy this.
* `int`, `int32` and `int64` values are integers; the program does no
  arithmetic on them.
* The `ctx` argument is dropped: the program only hands it on to the database
  driver.  Log calls are kept as steps on the world; they return nothing.
-/

/-! ## Go error values -/

/-- Package-level error variables.  Each is created once by `errors.New` or
`fmt.Errorf` without `%w`, and Go compares them by identity: two variables
with the same text are different errors. -/
inductive Sentinel
  /-- The variable `auth.ErrInvalidCredentials` -/
  | authInvalidCredentials
  /-- The variable `auth.ErrUserExists` -/
  | authUserExists
  /-- The variable `storage.ErrUserAlreadyExists` -/
  | storageUserAlreadyExists
  /-- The variable `storage.ErrUserNotFound` -/
  | storageUserNotFound
  /-- The variable `storage.ErrAppNotFound` -/
  | storageAppNotFound
  /-- The variable `storage.ErrNotFound` -/
  | storageNotFound
  /-- The variable `sql.ErrNoRows` of `database/sql` -/
  | sqlNoRows
  deriving DecidableEq, Repr

/-- The text each error variable was created with. -/
def Sentinel.text : Sentinel → String
  | .authInvalidCredentials => "invalid credentials"
  | .authUserExists => "user already exists"
  | .storageUserAlreadyExists => "user already exists"
  | .storageUserNotFound => "user not found"
  | .storageAppNotFound => "app not found"
  | .storageNotFound => "not found"
  | .sqlNoRows => "sql: no rows in result set"

/-- A Go `error` value as the program can see it.

* `sentinel`: one of the package-level variables;
* `sqlite3`: a `sqlite3.Error` struct value of the driver (it has no `Unwrap`);
* `foreign`: any other leaf error of a library whose type is comparable, told
  apart by `id`;
* `uncomparable`: a leaf error whose dynamic type is not comparable, such as
  a slice type with an `Error` method; Go never applies `==` with it as the
  target;
* `wrap op err`: the value of `fmt.Errorf("%s: %w", op, err)`.

No leaf has an `Is` method of its own. -/
inductive GoError
  | sentinel (s : Sentinel)
  | sqlite3 (code extendedCode : Nat) (msg : String)
  | foreign (id : Nat) (msg : String)
  | uncomparable (id : Nat) (msg : String)
  | wrap (op : String) (err : GoError)
  deriving DecidableEq, Repr

namespace GoError

/-- The method `Error()`. -/
def Error : GoError → String
  | sentinel s => s.text
  | sqlite3 _ _ msg => msg
  | foreign _ msg => msg
  | uncomparable _ msg => msg
  | wrap op err => op ++ ": " ++ err.Error

/-- The test `reflectlite.TypeOf(target).Comparable()` that `errors.Is` makes
on its target: pointers and plain structs are comparable. -/
def comparable : GoError → Bool
  | uncomparable _ _ => false
  | sentinel _ => true
  | sqlite3 _ _ _ => true
  | foreign _ _ => true
  | wrap _ _ => true

end GoError

/-- The call `fmt.Errorf("%s: %w", operation, err)`. -/
def fmtErrorf (operation : String) (err : GoError) : GoError :=
  GoError.wrap operation err

/-- The call `errors.Unwrap(err)`: the wrapped error, if there is one. -/
def errorsUnwrap : GoError → Option GoError
  | .wrap _ err => some err
  | .sentinel _ => none
  | .sqlite3 _ _ _ => none
  | .foreign _ _ => none
  | .uncomparable _ _ => none

/-- The loop `is(err, target, targetComparable)` of package `errors`: at each
link of the `Unwrap` chain, `==` is tried only when the type of the target is
comparable. -/
def errorsIsLoop : GoError → GoError → Bool → Bool
  | .wrap op err, target, targetComparable =>
    (targetComparable && decide (GoError.wrap op err = target)) ||
      errorsIsLoop err target targetComparable
  | .sentinel s, target, targetComparable =>
    targetComparable && decide (GoError.sentinel s = target)
  | .sqlite3 c x m, target, targetComparable =>
    targetComparable && decide (GoError.sqlite3 c x m = target)
  | .foreign i m, target, targetComparable =>
    targetComparable && decide (GoError.foreign i m = target)
  | .uncomparable i m, target, targetComparable =>
    targetComparable && decide (GoError.uncomparable i m = target)

/-- The call `errors.Is(err, target)` for non-nil `err` and `target`: the loop
above, with the comparability of the type of `target`.  A link made by
`fmt.Errorf` is a pointer; the model compares it by content, which agrees with
Go whenever the target is a package-level variable or a link of the chain of
`err` itself. -/
def errorsIs (err target : GoError) : Bool :=
  errorsIsLoop err target target.comparable

/-- The call `errors.As(err, &sqliteErr)` with `sqliteErr` of type
`sqlite3.Error`: the extended code of the first `sqlite3.Error` in the chain. -/
def errorsAsSqlite3 : GoError → Option Nat
  | .sqlite3 _ x _ => some x
  | .wrap _ err => errorsAsSqlite3 err
  | .sentinel _ => none
  | .foreign _ _ => none
  | .uncomparable _ _ => none

/-- The conversion `[]byte(s)`: the UTF-8 bytes of the string. -/
def bytesOf (s : String) : List UInt8 :=
  s.data.flatMap String.utf8EncodeChar

/-! ## Library functions the validation package calls -/

namespace unicode

/-- The function `unicode.IsSpace`: the Latin-1 cases and the `White_Space`
range table of the Go standard library. -/
def IsSpace (c : Char) : Bool :=
  let r := c.toNat
  (0x09 ≤ r && r ≤ 0x0d) || r == 0x20 || r == 0x85 || r == 0xA0 || r == 0x1680 ||
  (0x2000 ≤ r && r ≤ 0x200a) || r == 0x2028 || r == 0x2029 || r == 0x202f ||
  r == 0x205f || r == 0x3000

end unicode

namespace strings

/-- The function `strings.TrimSpace`: drop the leading and the trailing white
space. -/
def TrimSpace (s : String) : String :=
  ⟨((s.data.dropWhile unicode.IsSpace).reverse.dropWhile unicode.IsSpace).reverse⟩

end strings

/-! ## Package `validation` -/

namespace validation

/-- The constant `emptyID`. -/
def emptyID : Int := 0

/-- The function `IsEmail` delegates to `govalidator.IsEmail`, a library predicate passed
in as `govalidatorIsEmail`. -/
def IsEmail (govalidatorIsEmail : String → Bool) (email : String) : Bool :=
  govalidatorIsEmail email

/-- The function `IsValidAppID(appID int32)`. -/
def IsValidAppID (appID : Int) : Bool :=
  decide (appID > emptyID)

/-- The function `IsValidUserID(userID int64)`. -/
def IsValidUserID (userID : Int) : Bool :=
  decide (userID > emptyID)

/-- The function `CheckLength`: `len([]rune(value)) >= min`. -/
def CheckLength (value : String) (min : Int) : Bool :=
  decide ((value.data.length : Int) ≥ min)

/-- The function `IsRequired`: `strings.TrimSpace(value) != ""`. -/
def IsRequired (value : String) : Bool :=
  decide (strings.TrimSpace value ≠ "")

/-- The function `IsValidPassword`: `CheckLength(password, 5) && IsRequired(password)`. -/
def IsValidPassword (password : String) : Bool :=
  CheckLength password 5 && IsRequired password

end validation

/-! ## Package `models` -/

namespace models

/-- The struct `User`. -/
structure User where
  ID : String
  Name : String
  Email : String
  PasswordHash : List UInt8
  IsAdmin : Bool
  deriving DecidableEq, Repr

/-- The struct `App`. -/
structure App where
  ID : Int
  Name : String
  Secret : String
  deriving DecidableEq, Repr

/-- The zero value `models.User{}`. -/
def User.zero : User := ⟨"", "", "", [], false⟩

/-- The zero value `models.App{}`. -/
def App.zero : App := ⟨0, "", ""⟩

end models

/-! ## Package `storage`: the error variables -/

namespace storage

/-- The variable `ErrUserAlreadyExists = fmt.Errorf("user already exists")`. -/
def ErrUserAlreadyExists : GoError := .sentinel .storageUserAlreadyExists

/-- The variable `ErrUserNotFound = fmt.Errorf("user not found")`. -/
def ErrUserNotFound : GoError := .sentinel .storageUserNotFound

/-- The variable `ErrAppNotFound = fmt.Errorf("app not found")`. -/
def ErrAppNotFound : GoError := .sentinel .storageAppNotFound

/-- The variable `ErrNotFound = fmt.Errorf("not found")`. -/
def ErrNotFound : GoError := .sentinel .storageNotFound

end storage

/-! ## The libraries the program calls

Their results are not computed here: each library call is a field of a
record, and every property below holds whatever these fields are. -/

namespace sql

/-- The variable `sql.ErrNoRows`. -/
def ErrNoRows : GoError := .sentinel .sqlNoRows

/-- A value bound to a `?` of a statement. -/
inductive Arg
  | text (s : String)
  | blob (b : List UInt8)
  | integer (n : Int)
  deriving DecidableEq, Repr

/-- The interface `sql.Result`, as far as the program uses it. -/
structure Result where
  LastInsertId : Int × Option GoError

/-- The handle `*sql.DB`.  A prepared statement is named by its query text.
`QueryRowContext` followed by `Scan` is one field for each list of
destinations the program scans into; the values are those `Scan` stored. -/
structure DB (σ : Type) where
  /-- The call `db.Prepare(query)` -/
  Prepare : String → σ → Option GoError × σ
  /-- The call `stmt.ExecContext(ctx, args...)` -/
  ExecContext : String → List Arg → σ → (Result × Option GoError) × σ
  /-- The call `row.Scan(&user.ID, &user.Email, &user.PasswordHash, &user.IsAdmin)` -/
  ScanUser : String → List Arg → σ →
    ((String × String × List UInt8 × Bool) × Option GoError) × σ
  /-- The call `row.Scan(&isAdmin)` -/
  ScanBool : String → List Arg → σ → (Bool × Option GoError) × σ
  /-- The call `row.Scan(&app.ID, &app.Name)` -/
  ScanApp : String → List Arg → σ → ((Int × String) × Option GoError) × σ

end sql

namespace sqlite3

/-- The primary result code `sqlite3.ErrConstraint` of the driver. -/
def ErrConstraint : Nat := 19

/-- The extended code `sqlite3.ErrConstraintUnique`, `ErrConstraint.Extend(8)`. -/
def ErrConstraintUnique : Nat := ErrConstraint ||| (8 <<< 8)

end sqlite3

namespace slog

/-- An argument of a log call: an attribute, or a bare value. -/
inductive Arg
  | attr (key value : String)
  | bare (e : GoError)
  deriving DecidableEq, Repr

/-- The type `*slog.Logger`: where records go. -/
structure Logger (σ : Type) where
  /-- level, message, arguments -/
  Handle : String → String → List Arg → σ → σ

/-- The call `logger.With(args...)` -/
def Logger.With {σ : Type} (l : Logger σ) (args : List Arg) : Logger σ :=
  ⟨fun level msg rest => l.Handle level msg (args ++ rest)⟩

/-- The call `logger.Warn(msg, args...)` -/
def Logger.Warn {σ : Type} (l : Logger σ) (msg : String) (args : List Arg) (w : σ) : σ :=
  l.Handle "WARN" msg args w

/-- The call `logger.Error(msg, args...)` -/
def Logger.Error {σ : Type} (l : Logger σ) (msg : String) (args : List Arg) (w : σ) : σ :=
  l.Handle "ERROR" msg args w

end slog

namespace time

/-- A `time.Time`, as nanoseconds since the Unix epoch. -/
structure Time where
  unixNano : Int
  deriving DecidableEq, Repr

/-- The call `t.Add(d)`, with `d` a `time.Duration` in nanoseconds. -/
def Time.Add (t : Time) (d : Int) : Time := ⟨t.unixNano + d⟩

/-- The call `t.Unix()`: the whole seconds since the epoch. -/
def Time.Unix (t : Time) : Int := Int.fdiv t.unixNano 1000000000

end time

namespace golangjwt

/-- A value stored in a claim map. -/
inductive Value
  | str (s : String)
  | int (n : Int)
  | int64 (n : Int)
  deriving DecidableEq, Repr

/-- The type `jwt.MapClaims`, a `map[string]interface{}`. -/
abbrev MapClaims := List (String × Value)

/-- The assignment `claims[key] = value`. -/
def MapClaims.set : MapClaims → String → Value → MapClaims
  | [], key, value => [(key, value)]
  | (k, v) :: rest, key, value =>
    if k = key then (key, value) :: rest else (k, v) :: MapClaims.set rest key value

/-- The lookup `claims[key]`. -/
def MapClaims.get (claims : MapClaims) (key : String) : Option Value :=
  (claims.find? (fun kv => decide (kv.1 = key))).map Prod.snd

/-- The struct `jwt.Token` before signing. -/
structure Token where
  Method : String
  Header : List (String × String)
  Claims : MapClaims
  deriving DecidableEq, Repr

/-- The name of `jwt.SigningMethodHS256`. -/
def SigningMethodHS256 : String := "HS256"

/-- The function `jwt.New(method)`: the standard header and an empty claim map. -/
def New (method : String) : Token :=
  { Method := method, Header := [("typ", "JWT"), ("alg", method)], Claims := [] }

end golangjwt

/-- The library calls whose results the program branches on or returns. -/
structure Lib (σ : Type) where
  /-- The call `bcrypt.GenerateFromPassword(password, cost)`; it draws a random salt -/
  bcryptGenerateFromPassword : List UInt8 → Int → σ → (List UInt8 × Option GoError) × σ
  /-- The call `bcrypt.CompareHashAndPassword(hashedPassword, password)` -/
  bcryptCompareHashAndPassword : List UInt8 → List UInt8 → Option GoError
  /-- The call `time.Now()` -/
  timeNow : σ → time.Time × σ
  /-- The call `token.SignedString(key)` -/
  jwtSignedString : golangjwt.Token → List UInt8 → String × Option GoError
  /-- The call `govalidator.IsEmail(email)` -/
  govalidatorIsEmail : String → Bool

namespace helpers

/-- The function `Error(err)`: the attribute `error` holding the text of `err`. -/
def Error (err : GoError) : slog.Arg :=
  .attr "error" err.Error

end helpers

/-! ## Package `jwt` -/

namespace jwt

/-- The function `NewToken(user, app, duration)`. -/
def NewToken {σ : Type} (lib : Lib σ) (user : models.User) (app : models.App)
    (duration : Int) (w : σ) : (String × Option GoError) × σ :=
  let token := golangjwt.New golangjwt.SigningMethodHS256
  let claims := token.Claims
  let claims := claims.set "uid" (.str user.ID)
  let claims := claims.set "email" (.str user.Email)
  let claims := claims.set "app_id" (.int app.ID)
  match lib.timeNow w with
  | (now, w) =>
    let claims := claims.set "exp" (.int64 (now.Add duration).Unix)
    let token := { token with Claims := claims }
    match lib.jwtSignedString token (bytesOf app.Secret) with
    | (_, some err) => (("", some err), w)
    | (tokenString, none) => ((tokenString, none), w)

end jwt

/-! ## Package `auth`: the service -/

namespace auth

/-- The variable `ErrInvalidCredentials = errors.New("invalid credentials")`. -/
def ErrInvalidCredentials : GoError := .sentinel .authInvalidCredentials

/-- The variable `ErrUserExists = errors.New("user already exists")`. -/
def ErrUserExists : GoError := .sentinel .authUserExists

/-- The constant `hashingCost`. -/
def hashingCost : Int := 15

/-- The interface `UserSaver`. -/
structure UserSaver (σ : Type) where
  SaveUser : String → List UInt8 → σ → (Int × Option GoError) × σ

/-- The interface `UserProvider`. -/
structure UserProvider (σ : Type) where
  User : String → σ → (models.User × Option GoError) × σ
  IsAdmin : Int → σ → (Bool × Option GoError) × σ

/-- The interface `AppProvider`. -/
structure AppProvider (σ : Type) where
  App : Int → σ → (models.App × Option GoError) × σ

/-- The struct `Auth`. -/
structure Auth (σ : Type) where
  logger : slog.Logger σ
  userSaver : UserSaver σ
  userProvider : UserProvider σ
  appProvider : AppProvider σ
  tokenTTL : Int

/-- The function `New(logger, userSaver, userProvider, appProvider, tokenTTL)`. -/
def New {σ : Type} (logger : slog.Logger σ) (userSaver : UserSaver σ)
    (userProvider : UserProvider σ) (appProvider : AppProvider σ) (tokenTTL : Int) : Auth σ :=
  { userSaver := userSaver, userProvider := userProvider, logger := logger,
    appProvider := appProvider, tokenTTL := tokenTTL }

/-- The method `(a *Auth) Login(ctx, email, password, appID)`. -/
def Auth.Login {σ : Type} (lib : Lib σ) (a : Auth σ) (email password : String) (appID : Int)
    (w : σ) : (String × Option GoError) × σ :=
  let operation := "auth.Login"
  match a.userProvider.User email w with
  | ((_, some err), w) =>
    if errorsIs err storage.ErrUserNotFound then
      let w := a.logger.Warn "user not found" [helpers.Error err] w
      (("", some (fmtErrorf operation ErrInvalidCredentials)), w)
    else
      let w := a.logger.Error "failed to get user" [helpers.Error err] w
      (("", some (fmtErrorf operation err)), w)
  | ((user, none), w) =>
    match lib.bcryptCompareHashAndPassword user.PasswordHash (bytesOf password) with
    | some _ =>
      let w := a.logger.Warn "invalid credentials" [.bare ErrInvalidCredentials] w
      (("", some (fmtErrorf operation ErrInvalidCredentials)), w)
    | none =>
      match a.appProvider.App appID w with
      | ((_, some err), w) => (("", some (fmtErrorf operation err)), w)
      | ((app, none), w) =>
        match jwt.NewToken lib user app a.tokenTTL w with
        | ((_, some err), w) =>
          let w := a.logger.Error "failed to create token" [helpers.Error err] w
          (("", some (fmtErrorf operation err)), w)
        | ((token, none), w) => ((token, none), w)

/-- The function `hashPassword(password)`. -/
def hashPassword {σ : Type} (lib : Lib σ) (password : String) (w : σ) :
    (List UInt8 × Option GoError) × σ :=
  lib.bcryptGenerateFromPassword (bytesOf password) hashingCost w

/-- The method `(a *Auth) RegisterNewUser(ctx, email, password)`. -/
def Auth.RegisterNewUser {σ : Type} (lib : Lib σ) (a : Auth σ) (email password : String)
    (w : σ) : (Int × Option GoError) × σ :=
  let operation := "auth.RegisterNewUser"
  let logger := a.logger.With [.attr "operation" operation]
  match hashPassword lib password w with
  | ((_, some err), w) =>
    let w := logger.Error "failed to hash password" [helpers.Error err] w
    ((0, some (fmtErrorf operation err)), w)
  | ((passwordHash, none), w) =>
    match a.userSaver.SaveUser email passwordHash w with
    | ((_, some err), w) =>
      if errorsIs err storage.ErrUserAlreadyExists then
        let w := logger.Warn "user already exists" [.bare ErrUserExists] w
        ((0, some (fmtErrorf operation ErrUserExists)), w)
      else
        let w := logger.Error "failed to save user" [helpers.Error err] w
        ((0, some (fmtErrorf operation err)), w)
    | ((uid, none), w) => ((uid, none), w)

/-- The method `(a *Auth) IsAdmin(ctx, userID)`. -/
def Auth.IsAdmin {σ : Type} (a : Auth σ) (userID : Int) (w : σ) :
    (Bool × Option GoError) × σ :=
  let operation := "auth.IsAdmin"
  match a.userProvider.IsAdmin userID w with
  | ((_, some err), w) =>
    if errorsIs err storage.ErrUserNotFound then
      let w := a.logger.Warn "user not found" [helpers.Error err] w
      ((false, some (fmtErrorf operation ErrInvalidCredentials)), w)
    else
      ((false, some (fmtErrorf operation err)), w)
  | ((isAdmin, none), w) => ((isAdmin, none), w)

end auth

/-! ## Package `sqlite`: the storage backend -/

namespace sqlite

/-- The struct `Storage`. -/
structure Storage (σ : Type) where
  db : sql.DB σ

/-- The method `(s *Storage) SaveUser(ctx, email, passwordHash)`. -/
def Storage.SaveUser {σ : Type} (s : Storage σ) (email : String) (passwordHash : List UInt8)
    (w : σ) : (Int × Option GoError) × σ :=
  let operation := "storage.sqlite.SaveUser"
  let query := "INSERT INTO users (email, pass_hash) VALUES (?, ?)"
  match s.db.Prepare query w with
  | (some err, w) => ((0, some (fmtErrorf operation err)), w)
  | (none, w) =>
    match s.db.ExecContext query [.text email, .blob passwordHash] w with
    | ((_, some err), w) =>
      if errorsAsSqlite3 err = some sqlite3.ErrConstraintUnique then
        ((0, some (fmtErrorf operation err)), w)
      else
        ((0, some (fmtErrorf operation err)), w)
    | ((result, none), w) =>
      match result.LastInsertId with
      | (_, some err) => ((0, some (fmtErrorf operation err)), w)
      | (id, none) => ((id, none), w)

/-- The method `(s *Storage) User(ctx, email)`. -/
def Storage.User {σ : Type} (s : Storage σ) (email : String) (w : σ) :
    (models.User × Option GoError) × σ :=
  let operation := "storage.sqlite.User"
  let query := "SELECT * from users WHERE email = ?"
  match s.db.Prepare query w with
  | (some err, w) => ((models.User.zero, some (fmtErrorf operation err)), w)
  | (none, w) =>
    match s.db.ScanUser query [.text email] w with
    | ((_, some err), w) =>
      if errorsIs err sql.ErrNoRows then
        ((models.User.zero, some (fmtErrorf operation storage.ErrUserNotFound)), w)
      else
        ((models.User.zero, some (fmtErrorf operation err)), w)
    | (((id, mail, passHash, isAdmin), none), w) =>
      (({ models.User.zero with
            ID := id, Email := mail, PasswordHash := passHash, IsAdmin := isAdmin }, none), w)

/-- The method `(s *Storage) IsAdmin(ctx, userID)`. -/
def Storage.IsAdmin {σ : Type} (s : Storage σ) (userID : Int) (w : σ) :
    (Bool × Option GoError) × σ :=
  let operation := "storage.sqlite.IsAdmin"
  let query := "SELECT is_admin FROM users WHERE id = ?"
  match s.db.Prepare query w with
  | (some err, w) => ((false, some (fmtErrorf operation err)), w)
  | (none, w) =>
    match s.db.ScanBool query [.integer userID] w with
    | ((_, some err), w) =>
      if errorsIs err sql.ErrNoRows then
        ((false, some (fmtErrorf operation storage.ErrNotFound)), w)
      else
        ((false, some (fmtErrorf operation err)), w)
    | ((isAdmin, none), w) => ((isAdmin, none), w)

/-- The method `(s *Storage) App(ctx, appID)`. -/
def Storage.App {σ : Type} (s : Storage σ) (appID : Int) (w : σ) :
    (models.App × Option GoError) × σ :=
  let operation := "storage.sqlite.App"
  let query := "SELECT * from apps WHERE id = ?"
  match s.db.Prepare query w with
  | (some err, w) => ((models.App.zero, some (fmtErrorf operation err)), w)
  | (none, w) =>
    match s.db.ScanApp query [.integer appID] w with
    | ((_, some err), w) =>
      if errorsIs err sql.ErrNoRows then
        ((models.App.zero, some (fmtErrorf operation storage.ErrAppNotFound)), w)
      else
        ((models.App.zero, some (fmtErrorf operation err)), w)
    | (((id, name), none), w) =>
      (({ models.App.zero with ID := id, Name := name }, none), w)

/-- The storage as a `auth.UserSaver`. -/
def Storage.asUserSaver {σ : Type} (s : Storage σ) : auth.UserSaver σ :=
  ⟨s.SaveUser⟩

/-- The storage as a `auth.UserProvider`. -/
def Storage.asUserProvider {σ : Type} (s : Storage σ) : auth.UserProvider σ :=
  ⟨s.User, s.IsAdmin⟩

/-- The storage as a `auth.AppProvider`. -/
def Storage.asAppProvider {σ : Type} (s : Storage σ) : auth.AppProvider σ :=
  ⟨s.App⟩

end sqlite

/-! ## The gRPC side: status values and request messages -/

namespace codes

/-- The gRPC status codes (`google.golang.org/grpc/codes`). -/
inductive Code
  | OK | Canceled | Unknown | InvalidArgument | DeadlineExceeded | NotFound
  | AlreadyExists | PermissionDenied | ResourceExhausted | FailedPrecondition
  | Aborted | OutOfRange | Unimplemented | Internal | Unavailable | DataLoss
  | Unauthenticated
  deriving DecidableEq, Repr

end codes

namespace status

/-- The error made by `status.Error(code, msg)`. -/
structure Status where
  Code : codes.Code
  Message : String
  deriving DecidableEq, Repr

/-- The function `status.Error(c, msg)`. -/
def Error (c : codes.Code) (msg : String) : Status := ⟨c, msg⟩

/-- The function `status.Errorf(c, format)` with a format that has no verb. -/
def Errorf (c : codes.Code) (format : String) : Status := ⟨c, format⟩

end status

namespace ssov1

/-- The message `LoginRequest`; `app_id` is an `int32`. -/
structure LoginRequest where
  Email : String
  Password : String
  AppId : Int
  deriving DecidableEq, Repr

/-- The message `LoginResponse`. -/
structure LoginResponse where
  Token : String
  deriving DecidableEq, Repr

/-- The message `RegisterRequest`. -/
structure RegisterRequest where
  Email : String
  Password : String
  deriving DecidableEq, Repr

/-- The message `RegisterResponse`. -/
structure RegisterResponse where
  UserId : Int
  deriving DecidableEq, Repr

/-- The message `IsAdminRequest`. -/
structure IsAdminRequest where
  UserId : Int
  deriving DecidableEq, Repr

/-- The message `IsAdminResponse`. -/
structure IsAdminResponse where
  IsAdmin : Bool
  deriving DecidableEq, Repr

/-- A generated getter: the field, or the zero value on a nil message. -/
def LoginRequest.GetEmail : Option LoginRequest → String
  | some x => x.Email
  | none => ""

/-- A generated getter: the field, or the zero value on a nil message. -/
def LoginRequest.GetPassword : Option LoginRequest → String
  | some x => x.Password
  | none => ""

/-- A generated getter: the field, or the zero value on a nil message. -/
def LoginRequest.GetAppId : Option LoginRequest → Int
  | some x => x.AppId
  | none => 0

/-- A generated getter: the field, or the zero value on a nil message. -/
def RegisterRequest.GetEmail : Option RegisterRequest → String
  | some x => x.Email
  | none => ""

/-- A generated getter: the field, or the zero value on a nil message. -/
def RegisterRequest.GetPassword : Option RegisterRequest → String
  | some x => x.Password
  | none => ""

/-- A generated getter: the field, or the zero value on a nil message. -/
def IsAdminRequest.GetUserId : Option IsAdminRequest → Int
  | some x => x.UserId
  | none => 0

end ssov1

/-! ## Package `authgrpc`: the handlers -/

namespace authgrpc

/-- The interface `Auth` the handlers call. -/
structure Auth (σ : Type) where
  Login : String → String → Int → σ → (String × Option GoError) × σ
  RegisterNewUser : String → String → σ → (Int × Option GoError) × σ
  IsAdmin : Int → σ → (Bool × Option GoError) × σ

/-- The struct `ServerAPI`. -/
structure ServerAPI (σ : Type) where
  auth : Auth σ

/-- The function `validateLogin(req)`. -/
def validateLogin {σ : Type} (lib : Lib σ) (req : Option ssov1.LoginRequest) :
    Option status.Status :=
  if !validation.IsEmail lib.govalidatorIsEmail (ssov1.LoginRequest.GetEmail req) then
    some (status.Errorf .InvalidArgument "invalid email")
  else if !validation.IsValidPassword (ssov1.LoginRequest.GetPassword req) then
    some (status.Errorf .InvalidArgument "invalid password")
  else if !validation.IsValidAppID (ssov1.LoginRequest.GetAppId req) then
    some (status.Errorf .InvalidArgument "invalid app id")
  else
    none

/-- The method `(s *ServerAPI) Login(ctx, req)`. -/
def ServerAPI.Login {σ : Type} (lib : Lib σ) (s : ServerAPI σ)
    (req : Option ssov1.LoginRequest) (w : σ) :
    (Option ssov1.LoginResponse × Option status.Status) × σ :=
  match validateLogin lib req with
  | some err => ((none, some err), w)
  | none =>
    match s.auth.Login (ssov1.LoginRequest.GetEmail req) (ssov1.LoginRequest.GetPassword req)
        (ssov1.LoginRequest.GetAppId req) w with
    | ((_, some err), w) =>
      if errorsIs err auth.ErrInvalidCredentials then
        ((none, some (status.Error .InvalidArgument "invalid credentials")), w)
      else
        ((none, some (status.Error .Internal "internal error")), w)
    | ((token, none), w) => ((some { Token := token }, none), w)

/-- The function `validateRegister(req)`. -/
def validateRegister {σ : Type} (lib : Lib σ) (req : Option ssov1.RegisterRequest) :
    Option status.Status :=
  if !validation.IsEmail lib.govalidatorIsEmail (ssov1.RegisterRequest.GetEmail req) then
    some (status.Errorf .InvalidArgument "invalid email")
  else if !validation.IsValidPassword (ssov1.RegisterRequest.GetPassword req) then
    some (status.Errorf .InvalidArgument "invalid password")
  else
    none

/-- The method `(s *ServerAPI) Register(ctx, req)`. -/
def ServerAPI.Register {σ : Type} (lib : Lib σ) (s : ServerAPI σ)
    (req : Option ssov1.RegisterRequest) (w : σ) :
    (Option ssov1.RegisterResponse × Option status.Status) × σ :=
  match validateRegister lib req with
  | some err => ((none, some err), w)
  | none =>
    match s.auth.RegisterNewUser (ssov1.RegisterRequest.GetEmail req)
        (ssov1.RegisterRequest.GetPassword req) w with
    | ((_, some err), w) =>
      if errorsIs err storage.ErrUserAlreadyExists then
        ((none, some (status.Error .AlreadyExists "user already exists")), w)
      else
        ((none, some (status.Error .Internal "internal error")), w)
    | ((userID, none), w) => ((some { UserId := userID }, none), w)

/-- The function `validateIsAdmin(req)`. -/
def validateIsAdmin (req : Option ssov1.IsAdminRequest) : Option status.Status :=
  if !validation.IsValidUserID (ssov1.IsAdminRequest.GetUserId req) then
    some (status.Errorf .InvalidArgument "invalid user id")
  else
    none

/-- The method `(s *ServerAPI) IsAdmin(ctx, req)`. -/
def ServerAPI.IsAdmin {σ : Type} (s : ServerAPI σ) (req : Option ssov1.IsAdminRequest)
    (w : σ) : (Option ssov1.IsAdminResponse × Option status.Status) × σ :=
  match validateIsAdmin req with
  | some err => ((none, some err), w)
  | none =>
    match s.auth.IsAdmin (ssov1.IsAdminRequest.GetUserId req) w with
    | ((_, some err), w) =>
      if errorsIs err storage.ErrUserNotFound then
        ((none, some (status.Error .NotFound "user not found")), w)
      else
        ((none, some (status.Error .Internal "internal error")), w)
    | ((isAdmin, none), w) => ((some { IsAdmin := isAdmin }, none), w)

/-- The service `*auth.Auth` as the interface `Auth`, the way `app.New` hands
it to `authgrpc.Register`. -/
def ofService {σ : Type} (lib : Lib σ) (a : auth.Auth σ) : ServerAPI σ :=
  { auth := ⟨a.Login lib, a.RegisterNewUser lib, a.IsAdmin⟩ }

end authgrpc

/-! ## Package `app`: the wiring -/

namespace app

/-- The service of `app.New`: one sqlite storage in all three roles. -/
def authService {σ : Type} (logger : slog.Logger σ) (storage : sqlite.Storage σ)
    (tokenTTL : Int) : auth.Auth σ :=
  auth.New logger storage.asUserSaver storage.asUserProvider storage.asAppProvider tokenTTL

end app

/-! ## A concrete world for evaluating the program

The world is the trace of the calls that reached a library, newest first.
The database holds one user, `a@x.com` with id 1 and the password `secret1`,
and one application, 42. -/

namespace fixture

/-- The trace of library calls. -/
abbrev World := List String

/-- A logger that records level and message. -/
def logger : slog.Logger World :=
  ⟨fun level msg _ w => (level ++ ": " ++ msg) :: w⟩

/-- Stand-ins for the libraries: the hash of a password is the byte `$` put
before it, the clock is fixed, signing always succeeds, and an email is a
string with an `@`. -/
def lib : Lib World where
  bcryptGenerateFromPassword := fun password _ w =>
    ((0x24 :: password, none), "bcrypt.GenerateFromPassword" :: w)
  bcryptCompareHashAndPassword := fun hash password =>
    if hash = 0x24 :: password then none
    else some (.foreign 1 "crypto/bcrypt: hashedPassword is not the hash of the given password")
  timeNow := fun w => (⟨1700000000500000000⟩, "time.Now" :: w)
  jwtSignedString := fun _ _ => ("header.payload.signature", none)
  govalidatorIsEmail := fun s => s.data.contains '@'

/-- The database: the insert of `a@x.com` violates the unique constraint on
the email, every other insert gets id 2. -/
def db : sql.DB World where
  Prepare := fun _ w => (none, "db.Prepare" :: w)
  ExecContext := fun _ args w =>
    if args.head? = some (.text "a@x.com") then
      ((⟨(0, none)⟩, some (.sqlite3 19 2067 "UNIQUE constraint failed: users.email")),
        "stmt.ExecContext" :: w)
    else ((⟨(2, none)⟩, none), "stmt.ExecContext" :: w)
  ScanUser := fun _ args w =>
    if args = [.text "a@x.com"] then
      ((("1", "a@x.com", 0x24 :: bytesOf "secret1", false), none), "row.Scan" :: w)
    else ((("", "", [], false), some sql.ErrNoRows), "row.Scan" :: w)
  ScanBool := fun _ args w =>
    if args = [.integer 1] then ((false, none), "row.Scan" :: w)
    else ((false, some sql.ErrNoRows), "row.Scan" :: w)
  ScanApp := fun _ args w =>
    if args = [.integer 42] then (((42, "app"), none), "row.Scan" :: w)
    else (((0, ""), some sql.ErrNoRows), "row.Scan" :: w)

/-- The sqlite storage on that database. -/
def store : sqlite.Storage World := ⟨db⟩

/-- The user of the database, as the storage returns it. -/
def alice : models.User :=
  { ID := "1", Name := "", Email := "a@x.com", PasswordHash := 0x24 :: bytesOf "secret1",
    IsAdmin := false }

/-- The error of the stand-in for `bcrypt.CompareHashAndPassword`. -/
def mismatch : GoError :=
  .foreign 1 "crypto/bcrypt: hashedPassword is not the hash of the given password"

/-- The service as `app.New` builds it, with a token lifetime of one hour. -/
def service : auth.Auth World :=
  app.authService logger store 3600000000000

/-- A `UserSaver` that reports every email as taken. -/
def takenSaver : auth.UserSaver World :=
  ⟨fun _ _ w => ((0, some storage.ErrUserAlreadyExists), "SaveUser" :: w)⟩

/-- The service on `takenSaver`. -/
def serviceTaken : auth.Auth World :=
  auth.New logger takenSaver store.asUserProvider store.asAppProvider 3600000000000

/-- A `UserSaver` that fails with the error variable of the service layer. -/
def crossedSaver : auth.UserSaver World :=
  ⟨fun _ _ w => ((0, some auth.ErrUserExists), "SaveUser" :: w)⟩

/-- The service on `crossedSaver`. -/
def serviceCrossed : auth.Auth World :=
  auth.New logger crossedSaver store.asUserProvider store.asAppProvider 3600000000000

/-- An error whose type is not comparable: a slice of strings with an `Error`
method. -/
def sliceError : GoError :=
  .uncomparable 1 "lookup failed"

/-- An `AppProvider` that fails with `sliceError`. -/
def brokenApps : auth.AppProvider World :=
  ⟨fun _ w => ((models.App.zero, some sliceError), "App" :: w)⟩

/-- The service on `brokenApps`. -/
def serviceBrokenApps : auth.Auth World :=
  auth.New logger store.asUserSaver store.asUserProvider brokenApps 3600000000000

/-- A `UserSaver` that fails with `sliceError`. -/
def brokenSaver : auth.UserSaver World :=
  ⟨fun _ _ w => ((0, some sliceError), "SaveUser" :: w)⟩

/-- The service on `brokenSaver`. -/
def serviceBrokenSaver : auth.Auth World :=
  auth.New logger brokenSaver store.asUserProvider store.asAppProvider 3600000000000

/-- A `UserProvider` whose admin lookup reports `storage.ErrUserNotFound`. -/
def absentProvider : auth.UserProvider World :=
  ⟨store.User, fun _ w => ((false, some storage.ErrUserNotFound), "IsAdmin" :: w)⟩

/-- The service on `absentProvider`. -/
def serviceAbsent : auth.Auth World :=
  auth.New logger store.asUserSaver absentProvider store.asAppProvider 3600000000000

end fixture

/-! ## Properties of `validation` -/

/-- When every element left by `dropWhile` satisfies the test, nothing is
left. -/
theorem dropWhile_eq_nil_of_forall {α : Type} (p : α → Bool) (l : List α)
    (h : ∀ c ∈ l.dropWhile p, p c = true) : l.dropWhile p = [] := by
  induction l with
  | nil => rfl
  | cons a t ih =>
    by_cases ha : p a = true
    · simp only [List.dropWhile_cons_of_pos ha] at h ⊢
      exact ih h
    · exfalso
      simp only [List.dropWhile_cons_of_neg ha] at h
      exact ha (h a (List.mem_cons_self _ _))

/-- Trimming at both ends leaves nothing exactly when every element
satisfies the test. -/
theorem trim_both_eq_nil_iff {α : Type} (p : α → Bool) (l : List α) :
    ((l.dropWhile p).reverse.dropWhile p).reverse = [] ↔ ∀ c ∈ l, p c = true := by
  rw [List.reverse_eq_nil_iff, List.dropWhile_eq_nil_iff]
  constructor
  · intro h
    have h2 : l.dropWhile p = [] :=
      dropWhile_eq_nil_of_forall p l (fun c hc => h c (List.mem_reverse.mpr hc))
    exact List.dropWhile_eq_nil_iff.mp h2
  · intro h c hc
    have h2 : l.dropWhile p = [] := List.dropWhile_eq_nil_iff.mpr h
    rw [h2] at hc
    simp at hc

/-- Trimming leaves something exactly when some character is not white space. -/
theorem trimSpace_ne_empty_iff (s : String) :
    strings.TrimSpace s ≠ "" ↔ ∃ c ∈ s.data, unicode.IsSpace c = false := by
  have h := trim_both_eq_nil_iff unicode.IsSpace s.data
  unfold strings.TrimSpace
  constructor
  · intro hne
    by_contra hall
    push_neg at hall
    apply hne
    have hall2 : ∀ c ∈ s.data, unicode.IsSpace c = true := by
      intro c hc
      have := hall c hc
      simpa using this
    rw [h.mpr hall2]
  · rintro ⟨c, hc, hsp⟩ heq
    have hnil : ((s.data.dropWhile unicode.IsSpace).reverse.dropWhile unicode.IsSpace).reverse = [] := by
      have := congrArg String.data heq
      simpa using this
    have := h.mp hnil c hc
    rw [hsp] at this
    exact Bool.noConfusion this

/-- C6, as stated, fails: the password made of `a` and four blanks is accepted
although only one character is left after trimming. -/
theorem IsValidPassword_trimmed_length_counterexample :
    ¬ (validation.IsValidPassword "a    " = true ↔
        (5 ≤ (strings.TrimSpace "a    ").length ∧ strings.TrimSpace "a    " ≠ "")) := by
  decide

/-- C6, amended: a password is valid exactly when the password itself, not
trimmed, has at least 5 code points and is non-empty after trimming white
space; the latter says that it has a character that is not white space. -/
theorem IsValidPassword_iff (s : String) :
    (validation.IsValidPassword s = true ↔
        (5 ≤ s.length ∧ strings.TrimSpace s ≠ "")) ∧
    (validation.IsValidPassword s = true ↔
        (5 ≤ s.length ∧ ∃ c ∈ s.data, unicode.IsSpace c = false)) := by
  have hlen : validation.CheckLength s 5 = true ↔ 5 ≤ s.length := by
    unfold validation.CheckLength String.length
    simp
  have hreq : validation.IsRequired s = true ↔ strings.TrimSpace s ≠ "" := by
    unfold validation.IsRequired
    simp
  have hmain : validation.IsValidPassword s = true ↔
      (5 ≤ s.length ∧ strings.TrimSpace s ≠ "") := by
    unfold validation.IsValidPassword
    rw [Bool.and_eq_true, hlen, hreq]
  refine ⟨hmain, ?_⟩
  rw [hmain, trimSpace_ne_empty_iff]

/-! ## Properties of `errors.Is` on wrapped errors -/

/-- An error of comparable type is itself. -/
theorem errorsIs_self (e : GoError) (hc : e.comparable = true) : errorsIs e e = true := by
  cases e <;> simp_all [errorsIs, errorsIsLoop, GoError.comparable]

/-- Wrapping with `%w` keeps a wrapped error of comparable type reachable. -/
theorem errorsIs_fmtErrorf_inner (op : String) (e : GoError) (hc : e.comparable = true) :
    errorsIs (fmtErrorf op e) e = true := by
  have h := errorsIs_self e hc
  unfold errorsIs at h ⊢
  simp [fmtErrorf, errorsIsLoop, h]

/-- Nothing is an error of uncomparable type, not even that error itself. -/
theorem errorsIs_uncomparable (err e : GoError) (hc : e.comparable = false) :
    errorsIs err e = false := by
  unfold errorsIs
  rw [hc]
  induction err with
  | wrap op inner ih => simp [errorsIsLoop, ih]
  | sentinel s => simp [errorsIsLoop]
  | sqlite3 c x m => simp [errorsIsLoop]
  | foreign i m => simp [errorsIsLoop]
  | uncomparable i m => simp [errorsIsLoop]

/-- Wrapping with `%w` neither adds nor removes a package-level variable. -/
theorem errorsIs_fmtErrorf_sentinel (op : String) (e : GoError) (s : Sentinel) :
    errorsIs (fmtErrorf op e) (.sentinel s) = errorsIs e (.sentinel s) := by
  simp [fmtErrorf, errorsIs, errorsIsLoop, GoError.comparable]

/-! ## Properties of `jwt.NewToken` -/

/-- C7: `NewToken` signs, with the method HS256 and the key `[]byte(app.Secret)`,
the token whose claim map holds exactly the entries `uid = user.ID`,
`email = user.Email`, `app_id = app.ID` and `exp`, the whole Unix seconds of
the current time plus the duration; a lookup of any other key finds nothing.
It returns what the signing returns, with the empty string beside an error. -/
theorem NewToken_claims_exact {σ : Type} (lib : Lib σ) (user : models.User)
    (app : models.App) (ttl : Int) (w : σ) :
    jwt.NewToken lib user app ttl w =
      ((match lib.jwtSignedString
          { Method := "HS256"
            Header := [("typ", "JWT"), ("alg", "HS256")]
            Claims := [("uid", .str user.ID), ("email", .str user.Email),
              ("app_id", .int app.ID),
              ("exp", .int64 (Int.fdiv ((lib.timeNow w).1.unixNano + ttl) 1000000000))] }
          (bytesOf app.Secret) with
        | (_, some err) => ("", some err)
        | (tokenString, none) => (tokenString, none)),
       (lib.timeNow w).2) ∧
    ∀ key : String,
      golangjwt.MapClaims.get
        [("uid", .str user.ID), ("email", .str user.Email), ("app_id", .int app.ID),
          ("exp", .int64 (Int.fdiv ((lib.timeNow w).1.unixNano + ttl) 1000000000))] key =
        if key = "uid" then some (.str user.ID)
        else if key = "email" then some (.str user.Email)
        else if key = "app_id" then some (.int app.ID)
        else if key = "exp" then
          some (.int64 (Int.fdiv ((lib.timeNow w).1.unixNano + ttl) 1000000000))
        else none := by
  constructor
  · unfold jwt.NewToken
    rcases hnow : lib.timeNow w with ⟨now, w1⟩
    simp only [golangjwt.New, golangjwt.SigningMethodHS256, golangjwt.MapClaims.set,
      time.Time.Add, time.Time.Unix]
    simp only [decide_True, decide_False, String.reduceEq, ite_false, ite_true, reduceIte]
    rcases lib.jwtSignedString _ (bytesOf app.Secret) with ⟨tokenString, _ | err⟩ <;> rfl
  · intro key
    simp only [golangjwt.MapClaims.get, List.find?]
    by_cases h1 : "uid" = key
    · subst h1; simp
    · by_cases h2 : "email" = key
      · subst h2; simp
      · by_cases h3 : "app_id" = key
        · subst h3; simp
        · by_cases h4 : "exp" = key
          · subst h4; simp
          · have k1 : ¬ key = "uid" := fun h => h1 h.symm
            have k2 : ¬ key = "email" := fun h => h2 h.symm
            have k3 : ¬ key = "app_id" := fun h => h3 h.symm
            have k4 : ¬ key = "exp" := fun h => h4 h.symm
            simp [h1, h2, h3, h4, k1, k2, k3, k4]

/-! ## Properties of `auth.Auth.Login` -/

/-- C5: a login whose user lookup fails with `storage.ErrUserNotFound` and a
login whose user is found but whose password does not match the stored hash
return the same pair: the empty token and one and the same error, which is an
`auth.ErrInvalidCredentials` with the text `auth.Login: invalid credentials`. -/
theorem Login_unknown_user_and_wrong_password_same {σ τ : Type}
    (lib₁ : Lib σ) (a₁ : auth.Auth σ) (email₁ password₁ : String) (appID₁ : Int) (w₁ : σ)
    (lib₂ : Lib τ) (a₂ : auth.Auth τ) (email₂ password₂ : String) (appID₂ : Int) (w₂ : τ)
    (e mismatch : GoError) (user : models.User)
    (hlookup₁ : (a₁.userProvider.User email₁ w₁).1.2 = some e)
    (hnotfound : errorsIs e storage.ErrUserNotFound = true)
    (hlookup₂ : (a₂.userProvider.User email₂ w₂).1 = (user, none))
    (hmismatch : lib₂.bcryptCompareHashAndPassword user.PasswordHash (bytesOf password₂)
      = some mismatch) :
    ∃ err₁ err₂ : GoError,
      (a₁.Login lib₁ email₁ password₁ appID₁ w₁).1 = ("", some err₁) ∧
      (a₂.Login lib₂ email₂ password₂ appID₂ w₂).1 = ("", some err₂) ∧
      errorsIs err₁ auth.ErrInvalidCredentials = true ∧
      errorsIs err₂ auth.ErrInvalidCredentials = true ∧
      err₁.Error = err₂.Error ∧
      err₁.Error = "auth.Login: invalid credentials" ∧
      err₁ = err₂ := by
  refine ⟨fmtErrorf "auth.Login" auth.ErrInvalidCredentials,
    fmtErrorf "auth.Login" auth.ErrInvalidCredentials, ?_, ?_, ?_, ?_, rfl, ?_, rfl⟩
  · unfold auth.Auth.Login
    rcases hcall : a₁.userProvider.User email₁ w₁ with ⟨⟨u, oe⟩, w1⟩
    rw [hcall] at hlookup₁
    simp only at hlookup₁
    subst hlookup₁
    simp [hnotfound]
  · unfold auth.Auth.Login
    rcases hcall : a₂.userProvider.User email₂ w₂ with ⟨⟨u, oe⟩, w1⟩
    rw [hcall] at hlookup₂
    simp only [Prod.mk.injEq] at hlookup₂
    obtain ⟨hu, hoe⟩ := hlookup₂
    subst hu hoe
    simp [hmismatch]
  · decide
  · decide
  · decide

/-- C8, as stated, fails: the application lookup fails with an error whose
type is not comparable.  `Login` returns it wrapped, and `errors.Is` of the
returned error and that error is false, because `errors.Is` does not apply
`==` with a target of uncomparable type. -/
theorem Login_app_error_uncomparable_counterexample :
    (fixture.serviceBrokenApps.userProvider.User "a@x.com" []).1 = (fixture.alice, none) ∧
    fixture.lib.bcryptCompareHashAndPassword fixture.alice.PasswordHash (bytesOf "secret1")
      = none ∧
    (fixture.serviceBrokenApps.appProvider.App 42
        (fixture.serviceBrokenApps.userProvider.User "a@x.com" []).2).1.2
      = some fixture.sliceError ∧
    (fixture.serviceBrokenApps.Login fixture.lib "a@x.com" "secret1" 42 []).1
      = ("", some (fmtErrorf "auth.Login" fixture.sliceError)) ∧
    errorsIs (fmtErrorf "auth.Login" fixture.sliceError) fixture.sliceError = false ∧
    ¬ ∃ err : GoError,
        (fixture.serviceBrokenApps.Login fixture.lib "a@x.com" "secret1" 42 []).1
          = ("", some err) ∧
        errorsIs err fixture.sliceError = true := by
  refine ⟨by decide, by decide, by decide, by decide, by decide, ?_⟩
  rintro ⟨err, -, h⟩
  rw [errorsIs_uncomparable err fixture.sliceError (by decide)] at h
  exact Bool.noConfusion h

/-- C8, amended: when the user is found and the password matches, an error `e`
of the application lookup comes back as the empty token and `auth.Login: e`,
an error whose `Unwrap` is `e`; `errors.Is` of that error and `e` holds when
the type of `e` is comparable, and the error is an
`auth.ErrInvalidCredentials` exactly when `e` is. -/
theorem Login_app_error_propagated {σ : Type} (lib : Lib σ) (a : auth.Auth σ)
    (email password : String) (appID : Int) (w : σ) (user : models.User) (e : GoError)
    (huser : (a.userProvider.User email w).1 = (user, none))
    (hpass : lib.bcryptCompareHashAndPassword user.PasswordHash (bytesOf password) = none)
    (happ : (a.appProvider.App appID (a.userProvider.User email w).2).1.2 = some e) :
    ∃ err : GoError,
      (a.Login lib email password appID w).1 = ("", some err) ∧
      err = fmtErrorf "auth.Login" e ∧
      errorsUnwrap err = some e ∧
      (e.comparable = true → errorsIs err e = true) ∧
      errorsIs err auth.ErrInvalidCredentials = errorsIs e auth.ErrInvalidCredentials := by
  refine ⟨fmtErrorf "auth.Login" e, ?_, rfl, rfl, errorsIs_fmtErrorf_inner _ e,
    errorsIs_fmtErrorf_sentinel _ e _⟩
  unfold auth.Auth.Login
  rcases hcall : a.userProvider.User email w with ⟨⟨u, oe⟩, w1⟩
  rw [hcall] at huser happ
  simp only [Prod.mk.injEq] at huser
  obtain ⟨hu, hoe⟩ := huser
  subst hu hoe
  rcases hcall2 : a.appProvider.App appID w1 with ⟨⟨ap, oe2⟩, w2⟩
  rw [hcall2] at happ
  simp only at happ
  subst happ
  simp [hpass, hcall2]

/-! ## Properties of `auth.Auth.RegisterNewUser` -/

/-- C10, as stated, fails twice in its last part.  A `SaveUser` error that is
not `storage.ErrUserAlreadyExists` may itself be `auth.ErrUserExists`; it is
passed on wrapped, so the returned error is an `auth.ErrUserExists`, which the
claim excludes for every such error.  And a `SaveUser` error whose type is not
comparable is passed on wrapped too, but `errors.Is` of the returned error and
that error is false. -/
theorem RegisterNewUser_other_error_counterexample :
    (auth.hashPassword fixture.lib "secret1" []).1.2 = none ∧
    (fixture.serviceCrossed.RegisterNewUser fixture.lib "b@x.com" "secret1" []).1
      = (0, some (fmtErrorf "auth.RegisterNewUser" auth.ErrUserExists)) ∧
    ¬ (∀ (uid : Int) (e : GoError),
        (fixture.serviceCrossed.userSaver.SaveUser "b@x.com"
          (auth.hashPassword fixture.lib "secret1" []).1.1
          (auth.hashPassword fixture.lib "secret1" []).2).1 = (uid, some e) →
        errorsIs e storage.ErrUserAlreadyExists = false →
        ∃ err : GoError,
          (fixture.serviceCrossed.RegisterNewUser fixture.lib "b@x.com" "secret1" []).1
            = (0, some err) ∧
          errorsIs err e = true ∧
          errorsIs err auth.ErrUserExists = false) ∧
    (fixture.serviceBrokenSaver.userSaver.SaveUser "b@x.com"
        (auth.hashPassword fixture.lib "secret1" []).1.1
        (auth.hashPassword fixture.lib "secret1" []).2).1 = (0, some fixture.sliceError) ∧
    errorsIs fixture.sliceError storage.ErrUserAlreadyExists = false ∧
    (fixture.serviceBrokenSaver.RegisterNewUser fixture.lib "b@x.com" "secret1" []).1
      = (0, some (fmtErrorf "auth.RegisterNewUser" fixture.sliceError)) ∧
    errorsIs (fmtErrorf "auth.RegisterNewUser" fixture.sliceError) fixture.sliceError
      = false := by
  have hres : (fixture.serviceCrossed.RegisterNewUser fixture.lib "b@x.com" "secret1" []).1
      = (0, some (fmtErrorf "auth.RegisterNewUser" auth.ErrUserExists)) := by decide
  refine ⟨by decide, hres, ?_, by decide, by decide, by decide, by decide⟩
  intro h
  obtain ⟨err, h1, -, h3⟩ := h 0 auth.ErrUserExists (by decide) (by decide)
  rw [hres] at h1
  simp only [Prod.mk.injEq, Option.some.injEq, true_and] at h1
  subst h1
  revert h3
  decide

/-- C10, amended: when hashing succeeds, `RegisterNewUser` returns the id of
`SaveUser` and no error when `SaveUser` succeeds; `0` and an
`auth.ErrUserExists` when `SaveUser` fails with `storage.ErrUserAlreadyExists`;
and for any other `SaveUser` error `e`, `0` and the error
`auth.RegisterNewUser: e`, whose `Unwrap` is `e`; `errors.Is` of that error
and `e` holds when the type of `e` is comparable, and the error is an
`auth.ErrUserExists` exactly when `e` itself is. -/
theorem RegisterNewUser_results {σ : Type} (lib : Lib σ) (a : auth.Auth σ)
    (email password : String) (w : σ) (hash : List UInt8)
    (hhash : (auth.hashPassword lib password w).1 = (hash, none)) :
    (∀ uid : Int,
      (a.userSaver.SaveUser email hash (auth.hashPassword lib password w).2).1 = (uid, none) →
      (a.RegisterNewUser lib email password w).1 = (uid, none)) ∧
    (∀ (uid : Int) (e : GoError),
      (a.userSaver.SaveUser email hash (auth.hashPassword lib password w).2).1
        = (uid, some e) →
      errorsIs e storage.ErrUserAlreadyExists = true →
      ∃ err : GoError,
        (a.RegisterNewUser lib email password w).1 = (0, some err) ∧
        errorsIs err auth.ErrUserExists = true) ∧
    (∀ (uid : Int) (e : GoError),
      (a.userSaver.SaveUser email hash (auth.hashPassword lib password w).2).1
        = (uid, some e) →
      errorsIs e storage.ErrUserAlreadyExists = false →
      ∃ err : GoError,
        (a.RegisterNewUser lib email password w).1 = (0, some err) ∧
        err = fmtErrorf "auth.RegisterNewUser" e ∧
        errorsUnwrap err = some e ∧
        (e.comparable = true → errorsIs err e = true) ∧
        errorsIs err auth.ErrUserExists = errorsIs e auth.ErrUserExists) := by
  rcases hcall : auth.hashPassword lib password w with ⟨⟨h, oe⟩, w1⟩
  rw [hcall] at hhash
  simp only [Prod.mk.injEq] at hhash
  obtain ⟨hh, hoe⟩ := hhash
  subst hh hoe
  refine ⟨?_, ?_, ?_⟩
  · intro uid hsave
    rcases hcall2 : a.userSaver.SaveUser email h w1 with ⟨⟨u, oe2⟩, w2⟩
    rw [hcall2] at hsave
    simp only [Prod.mk.injEq] at hsave
    obtain ⟨hu, hoe2⟩ := hsave
    subst hu hoe2
    unfold auth.Auth.RegisterNewUser
    simp [hcall, hcall2]
  · intro uid e hsave hexists
    rcases hcall2 : a.userSaver.SaveUser email h w1 with ⟨⟨u, oe2⟩, w2⟩
    rw [hcall2] at hsave
    simp only [Prod.mk.injEq] at hsave
    obtain ⟨hu, hoe2⟩ := hsave
    subst hu hoe2
    refine ⟨fmtErrorf "auth.RegisterNewUser" auth.ErrUserExists, ?_, by decide⟩
    unfold auth.Auth.RegisterNewUser
    simp [hcall, hcall2, hexists]
  · intro uid e hsave hother
    rcases hcall2 : a.userSaver.SaveUser email h w1 with ⟨⟨u, oe2⟩, w2⟩
    rw [hcall2] at hsave
    simp only [Prod.mk.injEq] at hsave
    obtain ⟨hu, hoe2⟩ := hsave
    subst hu hoe2
    refine ⟨fmtErrorf "auth.RegisterNewUser" e, ?_, rfl, rfl, errorsIs_fmtErrorf_inner _ e,
      errorsIs_fmtErrorf_sentinel _ e _⟩
    unfold auth.Auth.RegisterNewUser
    simp [hcall, hcall2, hother]

/-! ## Properties of the gRPC handlers -/

/-- C9: `Login` answers INVALID_ARGUMENT and leaves the world as it was, for
every service behind it, when the email is not an email, or the password is
not valid, or `app_id <= 0`.  Otherwise it calls the service once: on a
service error that is an `auth.ErrInvalidCredentials` it answers
INVALID_ARGUMENT, on any other service error INTERNAL with the text
`internal error`, and without an error it answers the token of the service. -/
theorem ServerAPI_Login_statuses {σ : Type} (lib : Lib σ) (s : authgrpc.ServerAPI σ)
    (req : Option ssov1.LoginRequest) (w : σ) :
    ((validation.IsEmail lib.govalidatorIsEmail (ssov1.LoginRequest.GetEmail req) = false ∨
        validation.IsValidPassword (ssov1.LoginRequest.GetPassword req) = false ∨
        ssov1.LoginRequest.GetAppId req ≤ 0) →
      ∃ msg : String,
        s.Login lib req w = ((none, some (status.Error .InvalidArgument msg)), w)) ∧
    ((validation.IsEmail lib.govalidatorIsEmail (ssov1.LoginRequest.GetEmail req) = true ∧
        validation.IsValidPassword (ssov1.LoginRequest.GetPassword req) = true ∧
        0 < ssov1.LoginRequest.GetAppId req) →
      (∀ (token : String) (err : GoError) (w1 : σ),
        s.auth.Login (ssov1.LoginRequest.GetEmail req) (ssov1.LoginRequest.GetPassword req)
          (ssov1.LoginRequest.GetAppId req) w = ((token, some err), w1) →
        (errorsIs err auth.ErrInvalidCredentials = true →
          s.Login lib req w
            = ((none, some (status.Error .InvalidArgument "invalid credentials")), w1)) ∧
        (errorsIs err auth.ErrInvalidCredentials = false →
          s.Login lib req w
            = ((none, some (status.Error .Internal "internal error")), w1))) ∧
      (∀ (token : String) (w1 : σ),
        s.auth.Login (ssov1.LoginRequest.GetEmail req) (ssov1.LoginRequest.GetPassword req)
          (ssov1.LoginRequest.GetAppId req) w = ((token, none), w1) →
        s.Login lib req w = ((some { Token := token }, none), w1))) := by
  constructor
  · intro hbad
    unfold authgrpc.ServerAPI.Login authgrpc.validateLogin
    by_cases h1 : validation.IsEmail lib.govalidatorIsEmail (ssov1.LoginRequest.GetEmail req) = true
    · by_cases h2 : validation.IsValidPassword (ssov1.LoginRequest.GetPassword req) = true
      · have h3 : validation.IsValidAppID (ssov1.LoginRequest.GetAppId req) = false := by
          rcases hbad with h | h | h
          · rw [h1] at h; exact Bool.noConfusion h
          · rw [h2] at h; exact Bool.noConfusion h
          · simp [validation.IsValidAppID, validation.emptyID, h]
        exact ⟨"invalid app id", by simp [h1, h2, h3, status.Errorf, status.Error]⟩
      · exact ⟨"invalid password", by simp [h1, h2, status.Errorf, status.Error]⟩
    · exact ⟨"invalid email", by simp [h1, status.Errorf, status.Error]⟩
  · rintro ⟨h1, h2, h3⟩
    have h3b : validation.IsValidAppID (ssov1.LoginRequest.GetAppId req) = true := by
      simp [validation.IsValidAppID, validation.emptyID, h3]
    have hval : authgrpc.validateLogin lib req = none := by
      simp [authgrpc.validateLogin, h1, h2, h3b]
    refine ⟨?_, ?_⟩
    · intro token err w1 hcall
      constructor
      · intro his
        unfold authgrpc.ServerAPI.Login
        simp [hval, hcall, his]
      · intro his
        unfold authgrpc.ServerAPI.Login
        simp [hval, hcall, his]
    · intro token w1 hcall
      unfold authgrpc.ServerAPI.Login
      simp [hval, hcall]

/-! ## Where the code departs from its contract: the admin lookup -/

/-- Whatever the database, when the admin query finds no row the service
returns `false` and the doubly wrapped `storage.ErrNotFound`, which is not an
`auth.ErrInvalidCredentials`. -/
theorem IsAdmin_no_row_in_general {σ : Type} (logger : slog.Logger σ) (s : sqlite.Storage σ)
    (tokenTTL userID : Int) (w : σ) (e : GoError) (b : Bool)
    (hprepare : (s.db.Prepare "SELECT is_admin FROM users WHERE id = ?" w).1 = none)
    (hscan : (s.db.ScanBool "SELECT is_admin FROM users WHERE id = ?" [.integer userID]
      (s.db.Prepare "SELECT is_admin FROM users WHERE id = ?" w).2).1 = (b, some e))
    (hnorows : errorsIs e sql.ErrNoRows = true) :
    ((app.authService logger s tokenTTL).IsAdmin userID w).1
      = (false, some (fmtErrorf "auth.IsAdmin"
          (fmtErrorf "storage.sqlite.IsAdmin" storage.ErrNotFound))) ∧
    errorsIs (fmtErrorf "auth.IsAdmin" (fmtErrorf "storage.sqlite.IsAdmin" storage.ErrNotFound))
      auth.ErrInvalidCredentials = false := by
  refine ⟨?_, by decide⟩
  rcases hp : s.db.Prepare "SELECT is_admin FROM users WHERE id = ?" w with ⟨pe, w1⟩
  rw [hp] at hprepare hscan
  simp only at hprepare
  subst hprepare
  rcases hs : s.db.ScanBool "SELECT is_admin FROM users WHERE id = ?" [.integer userID] w1
    with ⟨⟨b2, oe⟩, w2⟩
  rw [hs] at hscan
  simp only [Prod.mk.injEq] at hscan
  obtain ⟨hb, hoe⟩ := hscan
  subst hb hoe
  have hinner : errorsIs (fmtErrorf "storage.sqlite.IsAdmin" storage.ErrNotFound)
      storage.ErrUserNotFound = false := by decide
  simp [app.authService, auth.New, auth.Auth.IsAdmin, sqlite.Storage.asUserProvider,
    sqlite.Storage.IsAdmin, hp, hs, hnorows, hinner]

/-- C1, evaluated: the database has no row for user id 7.  The storage
returns `storage.ErrNotFound` wrapped, the service wraps it once more and
returns it beside `false`; the returned error is not an
`auth.ErrInvalidCredentials`, although the email lookup of the same storage
reports a missing row as `storage.ErrUserNotFound`, the error the service
turns into `auth.ErrInvalidCredentials`. -/
theorem IsAdmin_missing_row_evaluated :
    (fixture.store.IsAdmin 7 []).1
      = (false, some (fmtErrorf "storage.sqlite.IsAdmin" storage.ErrNotFound)) ∧
    (fixture.service.IsAdmin 7 []).1
      = (false, some (fmtErrorf "auth.IsAdmin"
          (fmtErrorf "storage.sqlite.IsAdmin" storage.ErrNotFound))) ∧
    errorsIs (fmtErrorf "auth.IsAdmin" (fmtErrorf "storage.sqlite.IsAdmin" storage.ErrNotFound))
      auth.ErrInvalidCredentials = false ∧
    (fixture.store.User "nouser@x.com" []).1
      = (models.User.zero, some (fmtErrorf "storage.sqlite.User" storage.ErrUserNotFound)) := by
  decide

/-- Behind the handler, the service never returns an error that is a
`storage.ErrUserNotFound`: the handler never answers NOT_FOUND. -/
theorem IsAdmin_handler_never_not_found {σ : Type} (lib : Lib σ) (a : auth.Auth σ)
    (req : Option ssov1.IsAdminRequest) (w : σ) (msg : String) :
    ((authgrpc.ofService lib a).IsAdmin req w).1.2 ≠ some (status.Error .NotFound msg) := by
  unfold authgrpc.ServerAPI.IsAdmin
  cases hv : authgrpc.validateIsAdmin req with
  | some err =>
    have herr : err = status.Errorf .InvalidArgument "invalid user id" := by
      unfold authgrpc.validateIsAdmin at hv
      split at hv
      · exact (Option.some.inj hv).symm
      · exact Option.noConfusion hv
    subst herr
    simp [status.Errorf, status.Error]
  | none =>
    simp only [authgrpc.ofService, auth.Auth.IsAdmin]
    rcases hcall : a.userProvider.IsAdmin (ssov1.IsAdminRequest.GetUserId req) w
      with ⟨⟨b, oe⟩, w1⟩
    cases oe with
    | none => simp
    | some e =>
      by_cases hnf : errorsIs e storage.ErrUserNotFound = true
      · have h2 : errorsIs (fmtErrorf "auth.IsAdmin" auth.ErrInvalidCredentials)
            storage.ErrUserNotFound = false := by decide
        simp [hnf, h2, status.Error]
      · have h2 : errorsIs (fmtErrorf "auth.IsAdmin" e) storage.ErrUserNotFound = false := by
          rw [storage.ErrUserNotFound, errorsIs_fmtErrorf_sentinel]
          simpa [storage.ErrUserNotFound] using hnf
        simp [hnf, h2, status.Error]

/-- C4, evaluated: user id 7 is positive and absent.  Whether the storage
reports `storage.ErrUserNotFound` or, as the sqlite storage does,
`storage.ErrNotFound`, the handler answers INTERNAL, not NOT_FOUND. -/
theorem IsAdmin_handler_missing_user_evaluated :
    validation.IsValidUserID 7 = true ∧
    (fixture.absentProvider.IsAdmin 7 []).1 = (false, some storage.ErrUserNotFound) ∧
    ((authgrpc.ofService fixture.lib fixture.serviceAbsent).IsAdmin (some ⟨7⟩) []).1
      = (none, some (status.Error .Internal "internal error")) ∧
    (fixture.store.IsAdmin 7 []).1
      = (false, some (fmtErrorf "storage.sqlite.IsAdmin" storage.ErrNotFound)) ∧
    ((authgrpc.ofService fixture.lib fixture.service).IsAdmin (some ⟨7⟩) []).1
      = (none, some (status.Error .Internal "internal error")) := by
  decide

/-! ## Where the code departs from its contract: duplicate emails -/

/-- Whatever the database, a failed insert comes back as `0` and the driver
error wrapped with the operation name, the same for a unique-constraint
violation as for any other failure. -/
theorem SaveUser_insert_error_in_general {σ : Type} (s : sqlite.Storage σ) (email : String)
    (passwordHash : List UInt8) (w : σ) (e : GoError) (r : sql.Result)
    (hprepare : (s.db.Prepare "INSERT INTO users (email, pass_hash) VALUES (?, ?)" w).1 = none)
    (hexec : (s.db.ExecContext "INSERT INTO users (email, pass_hash) VALUES (?, ?)"
      [.text email, .blob passwordHash]
      (s.db.Prepare "INSERT INTO users (email, pass_hash) VALUES (?, ?)" w).2).1 = (r, some e)) :
    (s.SaveUser email passwordHash w).1 = (0, some (fmtErrorf "storage.sqlite.SaveUser" e)) ∧
    errorsIs (fmtErrorf "storage.sqlite.SaveUser" e) storage.ErrUserAlreadyExists
      = errorsIs e storage.ErrUserAlreadyExists := by
  refine ⟨?_, errorsIs_fmtErrorf_sentinel _ e _⟩
  rcases hp : s.db.Prepare "INSERT INTO users (email, pass_hash) VALUES (?, ?)" w with ⟨pe, w1⟩
  rw [hp] at hprepare hexec
  simp only at hprepare
  subst hprepare
  rcases hx : s.db.ExecContext "INSERT INTO users (email, pass_hash) VALUES (?, ?)"
    [.text email, .blob passwordHash] w1 with ⟨⟨r2, oe⟩, w2⟩
  rw [hx] at hexec
  simp only [Prod.mk.injEq] at hexec
  obtain ⟨hr, hoe⟩ := hexec
  subst hr hoe
  simp [sqlite.Storage.SaveUser, hp, hx]

/-- C3, evaluated: the insert of the registered email `a@x.com` fails with a
`sqlite3.Error` whose extended code is `sqlite3.ErrConstraintUnique`.
`SaveUser` sees that code and returns the driver error wrapped, which is not a
`storage.ErrUserAlreadyExists`; a failure with another code (here 13, a full
database) returns an error of the same shape. -/
theorem SaveUser_unique_violation_evaluated :
    (fixture.db.ExecContext "INSERT INTO users (email, pass_hash) VALUES (?, ?)"
        [.text "a@x.com", .blob [0x24, 0x78]] ["db.Prepare"]).1.2
      = some (.sqlite3 19 2067 "UNIQUE constraint failed: users.email") ∧
    errorsAsSqlite3 (.sqlite3 19 2067 "UNIQUE constraint failed: users.email")
      = some sqlite3.ErrConstraintUnique ∧
    (fixture.store.SaveUser "a@x.com" [0x24, 0x78] []).1
      = (0, some (fmtErrorf "storage.sqlite.SaveUser"
          (.sqlite3 19 2067 "UNIQUE constraint failed: users.email"))) ∧
    errorsIs (fmtErrorf "storage.sqlite.SaveUser"
        (.sqlite3 19 2067 "UNIQUE constraint failed: users.email"))
      storage.ErrUserAlreadyExists = false ∧
    ((sqlite.Storage.mk { fixture.db with
          ExecContext := fun _ _ w =>
            ((⟨(0, none)⟩, some (.sqlite3 13 13 "database or disk is full")), w) }).SaveUser
        "a@x.com" [0x24, 0x78] []).1
      = (0, some (fmtErrorf "storage.sqlite.SaveUser"
          (.sqlite3 13 13 "database or disk is full"))) ∧
    errorsIs (fmtErrorf "storage.sqlite.SaveUser" (.sqlite3 13 13 "database or disk is full"))
      storage.ErrUserAlreadyExists = false := by
  decide

/-- When hashing succeeds, the service never returns an error that is a
`storage.ErrUserAlreadyExists`: the handler never answers ALREADY_EXISTS. -/
theorem Register_handler_never_already_exists {σ : Type} (lib : Lib σ) (a : auth.Auth σ)
    (req : Option ssov1.RegisterRequest) (w : σ) (msg : String)
    (hhash : (auth.hashPassword lib (ssov1.RegisterRequest.GetPassword req) w).1.2 = none) :
    ((authgrpc.ofService lib a).Register lib req w).1.2
      ≠ some (status.Error .AlreadyExists msg) := by
  unfold authgrpc.ServerAPI.Register
  cases hv : authgrpc.validateRegister lib req with
  | some err =>
    have herr : err.Code = .InvalidArgument := by
      unfold authgrpc.validateRegister at hv
      split at hv
      · rw [← Option.some.inj hv]; rfl
      · split at hv
        · rw [← Option.some.inj hv]; rfl
        · exact Option.noConfusion hv
    intro h
    simp only [Option.some.injEq] at h
    rw [h] at herr
    exact codes.Code.noConfusion herr
  | none =>
    simp only [authgrpc.ofService, auth.Auth.RegisterNewUser]
    rcases hh : auth.hashPassword lib (ssov1.RegisterRequest.GetPassword req) w
      with ⟨⟨hash, oe⟩, w1⟩
    rw [hh] at hhash
    simp only at hhash
    subst hhash
    rcases hsave : a.userSaver.SaveUser (ssov1.RegisterRequest.GetEmail req) hash w1
      with ⟨⟨uid, oe2⟩, w2⟩
    cases oe2 with
    | none => simp [hsave]
    | some e =>
      by_cases hex : errorsIs e storage.ErrUserAlreadyExists = true
      · have h2 : errorsIs (fmtErrorf "auth.RegisterNewUser" auth.ErrUserExists)
            storage.ErrUserAlreadyExists = false := by decide
        simp [hsave, hex, h2, status.Error]
      · have h2 : errorsIs (fmtErrorf "auth.RegisterNewUser" e)
            storage.ErrUserAlreadyExists = false := by
          rw [storage.ErrUserAlreadyExists, errorsIs_fmtErrorf_sentinel]
          simpa [storage.ErrUserAlreadyExists] using hex
        simp [hsave, hex, h2, status.Error]

/-- C2, evaluated: the request passes validation and `SaveUser` reports
`storage.ErrUserAlreadyExists`.  The service returns `auth.ErrUserExists`
wrapped; the handler tests for `storage.ErrUserAlreadyExists`, does not find
it, and answers INTERNAL, not ALREADY_EXISTS. -/
theorem Register_duplicate_email_evaluated :
    authgrpc.validateRegister fixture.lib (some ⟨"a@x.com", "secret1"⟩) = none ∧
    (fixture.takenSaver.SaveUser "a@x.com" (0x24 :: bytesOf "secret1") []).1.2
      = some storage.ErrUserAlreadyExists ∧
    (fixture.serviceTaken.RegisterNewUser fixture.lib "a@x.com" "secret1" []).1
      = (0, some (fmtErrorf "auth.RegisterNewUser" auth.ErrUserExists)) ∧
    errorsIs (fmtErrorf "auth.RegisterNewUser" auth.ErrUserExists)
      storage.ErrUserAlreadyExists = false ∧
    ((authgrpc.ofService fixture.lib fixture.serviceTaken).Register fixture.lib
        (some ⟨"a@x.com", "secret1"⟩) []).1
      = (none, some (status.Error .Internal "internal error")) := by
  decide

/-! ## The properties at concrete inputs -/

/-- C5 at a concrete input: the unknown email `nouser@x.com` and the wrong
password `wrongpw` for `a@x.com`. -/
theorem Login_unknown_user_and_wrong_password_same_witness :
    (fixture.service.userProvider.User "nouser@x.com" []).1.2
      = some (fmtErrorf "storage.sqlite.User" storage.ErrUserNotFound) ∧
    errorsIs (fmtErrorf "storage.sqlite.User" storage.ErrUserNotFound)
      storage.ErrUserNotFound = true ∧
    (fixture.service.userProvider.User "a@x.com" []).1 = (fixture.alice, none) ∧
    fixture.lib.bcryptCompareHashAndPassword fixture.alice.PasswordHash (bytesOf "wrongpw")
      = some fixture.mismatch ∧
    ∃ err₁ err₂ : GoError,
      (fixture.service.Login fixture.lib "nouser@x.com" "secret1" 42 []).1 = ("", some err₁) ∧
      (fixture.service.Login fixture.lib "a@x.com" "wrongpw" 42 []).1 = ("", some err₂) ∧
      errorsIs err₁ auth.ErrInvalidCredentials = true ∧
      errorsIs err₂ auth.ErrInvalidCredentials = true ∧
      err₁.Error = err₂.Error ∧
      err₁.Error = "auth.Login: invalid credentials" ∧
      err₁ = err₂ :=
  ⟨by decide, by decide, by decide, by decide,
    Login_unknown_user_and_wrong_password_same
      fixture.lib fixture.service "nouser@x.com" "secret1" 42 []
      fixture.lib fixture.service "a@x.com" "wrongpw" 42 []
      (fmtErrorf "storage.sqlite.User" storage.ErrUserNotFound) fixture.mismatch fixture.alice
      (by decide) (by decide) (by decide) (by decide)⟩

/-- C8, amended, at a concrete input: the right password for `a@x.com` and the
unknown application 7; the storage reports `storage.ErrAppNotFound` wrapped,
an error of comparable type. -/
theorem Login_app_error_propagated_witness :
    (fixture.service.userProvider.User "a@x.com" []).1 = (fixture.alice, none) ∧
    fixture.lib.bcryptCompareHashAndPassword fixture.alice.PasswordHash (bytesOf "secret1")
      = none ∧
    (fixture.service.appProvider.App 7
        (fixture.service.userProvider.User "a@x.com" []).2).1.2
      = some (fmtErrorf "storage.sqlite.App" storage.ErrAppNotFound) ∧
    (fmtErrorf "storage.sqlite.App" storage.ErrAppNotFound).comparable = true ∧
    ∃ err : GoError,
      (fixture.service.Login fixture.lib "a@x.com" "secret1" 7 []).1 = ("", some err) ∧
      err = fmtErrorf "auth.Login" (fmtErrorf "storage.sqlite.App" storage.ErrAppNotFound) ∧
      errorsUnwrap err = some (fmtErrorf "storage.sqlite.App" storage.ErrAppNotFound) ∧
      errorsIs err (fmtErrorf "storage.sqlite.App" storage.ErrAppNotFound) = true ∧
      errorsIs err auth.ErrInvalidCredentials
        = errorsIs (fmtErrorf "storage.sqlite.App" storage.ErrAppNotFound)
            auth.ErrInvalidCredentials :=
  ⟨by decide, by decide, by decide, by decide,
    match Login_app_error_propagated fixture.lib fixture.service "a@x.com" "secret1" 7 []
      fixture.alice (fmtErrorf "storage.sqlite.App" storage.ErrAppNotFound)
      (by decide) (by decide) (by decide) with
    | ⟨err, h1, h2, h3, h4, h5⟩ => ⟨err, h1, h2, h3, h4 (by decide), h5⟩⟩

/-- C10, amended, at concrete inputs: a new email is saved with id 2, a taken
email gives `auth.ErrUserExists`, and a unique-constraint violation of the
database, which the storage does not report as taken, is passed on wrapped. -/
theorem RegisterNewUser_results_witness :
    (auth.hashPassword fixture.lib "secret1" []).1 = (0x24 :: bytesOf "secret1", none) ∧
    (fixture.service.RegisterNewUser fixture.lib "b@x.com" "secret1" []).1 = (2, none) ∧
    (∃ err : GoError,
      (fixture.serviceTaken.RegisterNewUser fixture.lib "a@x.com" "secret1" []).1
        = (0, some err) ∧
      errorsIs err auth.ErrUserExists = true) ∧
    (fmtErrorf "storage.sqlite.SaveUser"
      (.sqlite3 19 2067 "UNIQUE constraint failed: users.email")).comparable = true ∧
    (∃ err : GoError,
      (fixture.service.RegisterNewUser fixture.lib "a@x.com" "secret1" []).1 = (0, some err) ∧
      err = fmtErrorf "auth.RegisterNewUser" (fmtErrorf "storage.sqlite.SaveUser"
        (.sqlite3 19 2067 "UNIQUE constraint failed: users.email")) ∧
      errorsUnwrap err = some (fmtErrorf "storage.sqlite.SaveUser"
        (.sqlite3 19 2067 "UNIQUE constraint failed: users.email")) ∧
      errorsIs err (fmtErrorf "storage.sqlite.SaveUser"
        (.sqlite3 19 2067 "UNIQUE constraint failed: users.email")) = true ∧
      errorsIs err auth.ErrUserExists
        = errorsIs (fmtErrorf "storage.sqlite.SaveUser"
            (.sqlite3 19 2067 "UNIQUE constraint failed: users.email")) auth.ErrUserExists) :=
  ⟨by decide,
    (RegisterNewUser_results fixture.lib fixture.service "b@x.com" "secret1" []
      (0x24 :: bytesOf "secret1") (by decide)).1 2 (by decide),
    (RegisterNewUser_results fixture.lib fixture.serviceTaken "a@x.com" "secret1" []
      (0x24 :: bytesOf "secret1") (by decide)).2.1 0 storage.ErrUserAlreadyExists
      (by decide) (by decide),
    by decide,
    match (RegisterNewUser_results fixture.lib fixture.service "a@x.com" "secret1" []
      (0x24 :: bytesOf "secret1") (by decide)).2.2 0
      (fmtErrorf "storage.sqlite.SaveUser"
        (.sqlite3 19 2067 "UNIQUE constraint failed: users.email"))
      (by decide) (by decide) with
    | ⟨err, h1, h2, h3, h4, h5⟩ => ⟨err, h1, h2, h3, h4 (by decide), h5⟩⟩

/-- C9 at concrete inputs: a request with `app_id = 0` is refused with the
trace of library calls still empty; a wrong password is INVALID_ARGUMENT; an
unknown application is INTERNAL; the right credentials give the token. -/
theorem ServerAPI_Login_statuses_witness :
    (∃ msg : String,
      (authgrpc.ofService fixture.lib fixture.service).Login fixture.lib
        (some ⟨"a@x.com", "secret1", 0⟩) []
        = ((none, some (status.Error .InvalidArgument msg)), [])) ∧
    ((authgrpc.ofService fixture.lib fixture.service).Login fixture.lib
        (some ⟨"a@x.com", "wrongpw", 42⟩) []).1
      = (none, some (status.Error .InvalidArgument "invalid credentials")) ∧
    ((authgrpc.ofService fixture.lib fixture.service).Login fixture.lib
        (some ⟨"a@x.com", "secret1", 7⟩) []).1
      = (none, some (status.Error .Internal "internal error")) ∧
    ((authgrpc.ofService fixture.lib fixture.service).Login fixture.lib
        (some ⟨"a@x.com", "secret1", 42⟩) []).1
      = (some { Token := "header.payload.signature" }, none) :=
  ⟨(ServerAPI_Login_statuses fixture.lib (authgrpc.ofService fixture.lib fixture.service)
      (some ⟨"a@x.com", "secret1", 0⟩) []).1 (Or.inr (Or.inr (by decide))),
    congrArg Prod.fst
      ((((ServerAPI_Login_statuses fixture.lib
          (authgrpc.ofService fixture.lib fixture.service)
          (some ⟨"a@x.com", "wrongpw", 42⟩) []).2 ⟨by decide, by decide, by decide⟩).1
        "" (fmtErrorf "auth.Login" auth.ErrInvalidCredentials)
        ["WARN: invalid credentials", "row.Scan", "db.Prepare"] (by decide)).1 (by decide)),
    congrArg Prod.fst
      ((((ServerAPI_Login_statuses fixture.lib
          (authgrpc.ofService fixture.lib fixture.service)
          (some ⟨"a@x.com", "secret1", 7⟩) []).2 ⟨by decide, by decide, by decide⟩).1
        "" (fmtErrorf "auth.Login" (fmtErrorf "storage.sqlite.App" storage.ErrAppNotFound))
        ["row.Scan", "db.Prepare", "row.Scan", "db.Prepare"] (by decide)).2 (by decide)),
    congrArg Prod.fst
      (((ServerAPI_Login_statuses fixture.lib
          (authgrpc.ofService fixture.lib fixture.service)
          (some ⟨"a@x.com", "secret1", 42⟩) []).2 ⟨by decide, by decide, by decide⟩).2
        "header.payload.signature"
        ["time.Now", "row.Scan", "db.Prepare", "row.Scan", "db.Prepare"] (by decide))⟩
